import Mathlib

/-!
Shallow embedding of `expense_tracker.py` (a JSON-document expense tracker CLI)
and proofs about its specified behaviour.

Modelling conventions:
* Python `float` amounts are modelled as exact rationals (`ℚ`); Python's
  `round(x, 2)` is modelled as exact round-half-to-even on the rational value.
* Python strings are Lean `String`s; `str.lower`/`str.strip`/`str.startswith`
  are modelled character-wise (the data handled by the program is ASCII).
* The persisted JSON file is modelled by `FileContent`: absent, unparsable
  text, or a parsed JSON value.  A parsed JSON object holding the three
  documented top-level keys (each optional) is `RawDoc`; any other JSON value
  (list, string, number, ...) is `JVal.nonObj`, on which `dict.setdefault`
  does not exist.
* `dict` values keep Python semantics: assignment to an existing key
  overwrites in place, a new key is appended (`dictSet`); JSON objects have
  unique keys.
* `sorted(..., key=...)` is modelled by the stable `List.mergeSort` with the
  corresponding total boolean preorder.
* Each handler returns the document it saves (if any), the lines it prints,
  and the CSV file it writes (if any); `main` models the top-level
  `try/except argparse.ArgumentTypeError` wrapper.
-/

namespace ExpenseTracker

/-- Error raised by validation helpers: models `argparse.ArgumentTypeError`
(the spec's `InvalidInput`). -/
inductive PyErr where
  | argTypeError (msg : String)
deriving DecidableEq

/-- Error raised by calling `.setdefault` on a non-dict: models Python's
`AttributeError`, which `load_data` does not catch. -/
inductive AttrErr where
  | attributeError
deriving DecidableEq

/-! ### Small string / digit helpers -/

/-- The decimal digit character for `n < 10` (used to model Python's zero-padded
`%02d` / `%04d` formatting). -/
def digitChar (n : Nat) : Char :=
  match n with
  | 0 => '0' | 1 => '1' | 2 => '2' | 3 => '3' | 4 => '4'
  | 5 => '5' | 6 => '6' | 7 => '7' | 8 => '8' | 9 => '9'
  | _ => '0'

/-- Numeric value of a decimal digit character, `none` on a non-digit
(models the `\d` character class of `strptime`'s regex). -/
def digitVal? (c : Char) : Option Nat :=
  if '0' ≤ c ∧ c ≤ '9' then some (c.toNat - '0'.toNat) else none

/-- Two-digit zero-padded decimal rendering of `n < 100` (Python `f"{n:02d}"`). -/
def pad2l (n : Nat) : List Char := [digitChar (n / 10 % 10), digitChar (n % 10)]

/-- Four-digit zero-padded decimal rendering of `n < 10000` (Python `f"{n:04d}"`). -/
def pad4l (n : Nat) : List Char :=
  [digitChar (n / 1000 % 10), digitChar (n / 100 % 10), digitChar (n / 10 % 10),
   digitChar (n % 10)]

/-- Python `str.lower()` on the ASCII data handled by the program. -/
def pyLower (s : String) : String := String.mk (s.data.map Char.toLower)

/-- Python `s.startswith(pre)`. -/
def pyStartswith (s pre : String) : Bool := pre.data.isPrefixOf s.data

/-- Boolean code-point lexicographic comparison of character lists: Python's
`<` on strings. -/
def charsLt : List Char → List Char → Bool
  | [], [] => false
  | [], _ :: _ => true
  | _ :: _, [] => false
  | a :: as, b :: bs =>
    if a < b then true
    else if b < a then false
    else charsLt as bs

/-- Python `str.strip()`: drop leading and trailing whitespace. -/
def pyStrip (s : String) : String :=
  String.mk (((s.data.dropWhile Char.isWhitespace).reverse.dropWhile
    Char.isWhitespace).reverse)

/-- Python `str.ljust(w)`: pad on the right with spaces up to width `w`. -/
def ljust (s : String) (w : Nat) : String :=
  s ++ String.mk (List.replicate (w - s.length) ' ')

/-! ### Rounding (Python `round(x, 2)` and `"%.2f"` formatting) -/

/-- Round a rational to the nearest integer, ties to even: the rounding mode of
Python's `round` (the binary-float representation error of CPython floats is
abstracted away; values are exact rationals here). -/
def rhe (x : ℚ) : ℤ :=
  if x - ⌊x⌋ < 1/2 then ⌊x⌋
  else if (1:ℚ)/2 < x - ⌊x⌋ then ⌊x⌋ + 1
  else if ⌊x⌋ % 2 = 0 then ⌊x⌋ else ⌊x⌋ + 1

/-- Python `round(x, 2)`: round to the nearest multiple of `1/100`. -/
def round2 (q : ℚ) : ℚ := (rhe (100 * q) : ℚ) / 100

/-- Python `f"{x:.2f}"`: fixed two-decimal rendering of an amount. -/
def fmt2 (q : ℚ) : String :=
  let c := rhe (100 * q)
  let a := c.natAbs
  (if c < 0 then "-" else "") ++ toString (a / 100) ++ "." ++ String.mk (pad2l (a % 100))

/-- Left-pad a string with zeros to length `k`. -/
def padZeros (k : Nat) (s : String) : String :=
  String.mk (List.replicate (k - s.length) '0') ++ s

/-- Python `str(float)` as used by `csv.writerow` on an amount: the shortest
exact decimal form for rationals with a small power-of-ten denominator
(which is what validated amounts are); other rationals — unreachable from
validated data — fall back to a fraction rendering. -/
def pyFloatStr (q : ℚ) : String :=
  if q.den = 1 then toString q.num ++ ".0"
  else
    match (List.range 18).find? (fun k => (q * (10:ℚ) ^ k).den == 1) with
    | some k =>
      let a := (q * (10:ℚ) ^ k).num.natAbs
      (if q.num < 0 then "-" else "") ++ toString (a / 10 ^ k) ++ "." ++
        padZeros k (toString (a % 10 ^ k))
    | none => toString q.num ++ "/" ++ toString q.den

/-! ### Record model and validation (`expense_tracker.py` lines 53-91) -/

/-- `validate_amount` (lines 88-91): reject non-positive amounts, round the
rest to two decimals. -/
def validate_amount (amount : ℚ) : Except PyErr ℚ :=
  if amount ≤ 0 then .error (.argTypeError "Amount must be positive.")
  else .ok (round2 amount)

/-- Leap-year rule used by `datetime.date` for validating a parsed day. -/
def isLeap (y : Nat) : Bool := y % 4 == 0 && (y % 100 != 0 || y % 400 == 0)

/-- Number of days in month `m` of year `y`, as `datetime.date` validates it. -/
def daysInMonth (y m : Nat) : Nat :=
  if m = 2 then (if isLeap y then 29 else 28)
  else if m = 4 ∨ m = 6 ∨ m = 9 ∨ m = 11 then 30
  else 31

/-- The day part of CPython `strptime`'s `%d` at end of input: the ordered
regex alternation `3[01]|[12]\d|0[1-9]|[1-9]` followed by end-of-string,
i.e. one digit `1-9` or two digits with value `1..31`. -/
def dayEnd : List Char → Option Nat
  | [c1] =>
    match digitVal? c1 with
    | some a => if 1 ≤ a then some a else none
    | none => none
  | [c1, c2] =>
    match digitVal? c1, digitVal? c2 with
    | some a, some b =>
      let d := a * 10 + b
      if 1 ≤ d ∧ d ≤ 31 then some d else none
    | _, _ => none
  | _ => none

/-- Branch of `strptime`'s `%m` taking two digits (`1[0-2]|0[1-9]`, i.e. value
`1..12`), then the literal `-`, then the day. -/
def twoDigitMonth : List Char → Option (Nat × Nat)
  | c1 :: c2 :: '-' :: rest =>
    match digitVal? c1, digitVal? c2 with
    | some a, some b =>
      let m := a * 10 + b
      if 1 ≤ m ∧ m ≤ 12 then
        match dayEnd rest with
        | some d => some (m, d)
        | none => none
      else none
    | _, _ => none
  | _ => none

/-- Branch of `strptime`'s `%m` taking one digit (`[1-9]`), then the literal
`-`, then the day. -/
def oneDigitMonth : List Char → Option (Nat × Nat)
  | c1 :: '-' :: rest =>
    match digitVal? c1 with
    | some a =>
      if 1 ≤ a then
        match dayEnd rest with
        | some d => some (a, d)
        | none => none
      else none
    | none => none
  | _ => none

/-- Month-then-day part of the `strptime` pattern; regex alternation
backtracks, and the two branch shapes are disjoint (second character digit
vs `-`), so trying them in order is exact. -/
def parseMD (cs : List Char) : Option (Nat × Nat) :=
  match twoDigitMonth cs with
  | some r => some r
  | none => oneDigitMonth cs

/-- CPython `datetime.strptime(s, "%Y-%m-%d")` followed by taking the date:
`%Y` is exactly four digits, `%m`/`%d` are one or two digits as above, the
whole string must be consumed, and the resulting triple must be a real
calendar date (`datetime` requires `1 <= year`; four digits bound it by 9999). -/
def strptimeYmd (s : String) : Option (Nat × Nat × Nat) :=
  match s.data with
  | c1 :: c2 :: c3 :: c4 :: '-' :: rest =>
    match digitVal? c1, digitVal? c2, digitVal? c3, digitVal? c4 with
    | some a, some b, some c, some d =>
      match parseMD rest with
      | some (m, dd) =>
        let y := ((a * 10 + b) * 10 + c) * 10 + d
        if 1 ≤ y ∧ 1 ≤ dd ∧ dd ≤ daysInMonth y m then some (y, m, dd) else none
      | none => none
    | _, _, _, _ => none
  | _ => none

/-- `date(y, m, d).isoformat()`: canonical zero-padded `YYYY-MM-DD`. -/
def isoformat (y m d : Nat) : String :=
  String.mk (pad4l y ++ '-' :: (pad2l m ++ '-' :: pad2l d))

/-- `parse_date` (lines 53-61): empty/absent input yields today's date;
otherwise parse via `strptime("%Y-%m-%d")` and return the ISO form, raising
`ArgumentTypeError` when parsing fails.  `today` is the ISO form of the
current date. -/
def parse_date (today : String) : Option String → Except PyErr String
  | none => .ok today
  | some s =>
    if s = "" then .ok today
    else
      match strptimeYmd s with
      | some (y, m, d) => .ok (isoformat y m d)
      | none => .error (.argTypeError "Invalid date format. Use YYYY-MM-DD.")

/-- `month_to_ym` (lines 64-68): validate the month range, defaulting the year
to today's year (every call site passes the year explicitly). -/
def month_to_ym (month : Int) (year : Option Int) (todayYear : Int) :
    Except PyErr (Int × Int) :=
  if month < 1 ∨ month > 12 then .error (.argTypeError "Month must be between 1 and 12.")
  else .ok (year.getD todayYear, month)

/-- `ym_key` (lines 71-72): `f"{year:04d}-{month:02d}"` (call sites only reach
it with a non-negative year and a validated month). -/
def ym_key (year month : Int) : String :=
  String.mk (pad4l year.toNat ++ '-' :: pad2l month.toNat)

/-- The month-filter text `f"{y:04d}-{m:02d}-"` built in `filter_expenses`. -/
def ymDash (y m : Nat) : String :=
  String.mk (pad4l y ++ '-' :: (pad2l m ++ ['-']))

/-- `month_name` (lines 75-76): English month name via `strftime("%B")`;
call sites only reach it with a validated month `1..12`. -/
def month_name (m : Int) : String :=
  match m with
  | 1 => "January" | 2 => "February" | 3 => "March" | 4 => "April"
  | 5 => "May" | 6 => "June" | 7 => "July" | 8 => "August"
  | 9 => "September" | 10 => "October" | 11 => "November" | 12 => "December"
  | _ => ""

/-! ### Data model (`Expense` dataclass and the persisted document) -/

/-- The `Expense` dataclass (lines 79-85); `category = None` means
uncategorized. -/
structure Expense where
  id : Int
  date : String
  description : String
  amount : ℚ
  category : Option String
deriving DecidableEq

/-- The in-memory document: the dict returned by `load_data` after the three
required keys are ensured. -/
structure Doc where
  next_id : Int
  expenses : List Expense
  budgets : List (String × ℚ)
deriving DecidableEq

/-- A parsed JSON object with the three recognized top-level keys, each
possibly missing (`data.setdefault` backfills them). -/
structure RawDoc where
  next_id : Option Int
  expenses : Option (List Expense)
  budgets : Option (List (String × ℚ))
deriving DecidableEq

/-- A successfully parsed JSON value: either an object or anything else
(list, string, number, boolean, null), on which `.setdefault` raises. -/
inductive JVal where
  | obj (raw : RawDoc)
  | nonObj
deriving DecidableEq

/-- State of the backing `data.json` file as `load_data` distinguishes it. -/
inductive FileContent where
  | absent
  | unparsable
  | json (v : JVal)
deriving DecidableEq

/-- The fresh document `{"next_id": 1, "expenses": [], "budgets": {}}`. -/
def freshDoc : Doc := ⟨1, [], []⟩

/-- Effect of the three `setdefault` calls on a parsed object. -/
def docOfRaw (r : RawDoc) : Doc :=
  ⟨r.next_id.getD 1, r.expenses.getD [], r.budgets.getD []⟩

/-- `load_data` (lines 23-42).  `renameOk` says whether the best-effort
`path.replace(backup)` succeeds; the returned `Bool` is whether a backup file
was created.  A parse failure is recovered; a parsed non-object reaches
`data.setdefault` and raises `AttributeError`, which is not caught. -/
def load_data : FileContent → Bool → Except AttrErr (Doc × Bool)
  | .absent, _ => .ok (freshDoc, false)
  | .unparsable, renameOk => .ok (freshDoc, renameOk)
  | .json (.obj raw), _ => .ok (docOfRaw raw, false)
  | .json .nonObj, _ => .error .attributeError

/-- `save_data` (lines 45-50): serializes the whole document; the temp-file
atomic-rename mechanics leave the backing file holding exactly this value. -/
def save_data (d : Doc) : FileContent :=
  .json (.obj ⟨some d.next_id, some d.expenses, some d.budgets⟩)

/-! ### Command handlers (lines 94-249) -/

/-- Per-invocation environment: today's date in ISO form and its year
(Python calls `date.today()` at each use site within one command). -/
structure Env where
  todayIso : String
  year : Nat

/-- Result of one handler run: the document passed to `save_data` (if the
handler saved), the lines printed, and the CSV file written (if any). -/
structure HRes where
  saved : Option Doc
  output : List String
  csv : Option (String × List String)
deriving DecidableEq

/-- The category argument as stored: `args.category.strip() if args.category
else None` (note: a whitespace-only argument is truthy and strips to `""`). -/
def stripOptCat : Option String → Option String
  | none => none
  | some c => if c = "" then none else some (pyStrip c)

/-- `add_expense` (lines 94-107): validate date then amount (evaluation order
of the `Expense(...)` keywords), append the record with `id = next_id`,
increment `next_id`, save, print the new id. -/
def add_expense (doc : Doc) (env : Env) (description : String) (amount : ℚ)
    (dt : Option String) (category : Option String) : Except PyErr HRes :=
  match parse_date env.todayIso dt with
  | .error e => .error e
  | .ok pd =>
    match validate_amount amount with
    | .error e => .error e
    | .ok amt =>
      .ok ⟨some ⟨doc.next_id + 1,
                 doc.expenses ++ [⟨doc.next_id, pd, pyStrip description, amt,
                                   stripOptCat category⟩],
                 doc.budgets⟩,
           ["Expense added successfully (ID: " ++ toString doc.next_id ++ ")"],
           none⟩

/-- Replace the first element satisfying `p` (Python mutates the dict found by
`next(...)` in place, keeping its position in the list). -/
def replaceFirst (l : List α) (p : α → Bool) (a : α) : List α :=
  match l with
  | [] => []
  | x :: t => if p x then a :: t else x :: replaceFirst t p a

/-- `update_expense` (lines 110-126): look up the id (first match); if absent
print the not-found line and do not save; otherwise overwrite exactly the
supplied fields in source order (description, amount, date, category), save
and print success. -/
def update_expense (doc : Doc) (env : Env) (eid : Int) (description : Option String)
    (amount : Option ℚ) (dt : Option String) (category : Option String) :
    Except PyErr HRes :=
  match doc.expenses.find? (fun e => e.id == eid) with
  | none => .ok ⟨none, ["Error: Expense ID not found."], none⟩
  | some e0 =>
    let e1 := match description with
      | some s => { e0 with description := pyStrip s }
      | none => e0
    match (match amount with
           | some a =>
             match validate_amount a with
             | .error err => .error err
             | .ok v => .ok { e1 with amount := v }
           | none => .ok e1 : Except PyErr Expense) with
    | .error err => .error err
    | .ok e2 =>
      match (match dt with
             | some s =>
               match parse_date env.todayIso (some s) with
               | .error err => .error err
               | .ok v => .ok { e2 with date := v }
             | none => .ok e2 : Except PyErr Expense) with
      | .error err => .error err
      | .ok e3 =>
        let e4 := match category with
          | some c => { e3 with category := if c = "" then none else some (pyStrip c) }
          | none => e3
        .ok ⟨some ⟨doc.next_id, replaceFirst doc.expenses (fun x => x.id == eid) e4,
                   doc.budgets⟩,
             ["Expense updated successfully"], none⟩

/-- `delete_expense` (lines 129-138): drop every record with the given id; if
the length is unchanged print the not-found line and do not save, else save
and print success. -/
def delete_expense (doc : Doc) (eid : Int) : Except PyErr HRes :=
  let remaining := doc.expenses.filter (fun e => e.id != eid)
  if remaining.length = doc.expenses.length then
    .ok ⟨none, ["Error: Expense ID not found."], none⟩
  else
    .ok ⟨some ⟨doc.next_id, remaining, doc.budgets⟩,
         ["Expense deleted successfully"], none⟩

/-- Sort key comparison of `sorted(filtered, key=lambda e: (e.get("date", ""),
e["id"]))`: lexicographic on the date string (code points), then the id. -/
def expLe (a b : Expense) : Bool :=
  charsLt a.date.data b.date.data || (a.date == b.date && decide (a.id ≤ b.id))

/-- `filter_expenses` (lines 141-150): an empty or absent category is falsy
and filters nothing; a non-empty category must match case-insensitively
(absent category compares as `""`); a month filters on the
`f"{y:04d}-{m:02d}-"` date text for today's year, after range-checking the
month; the result is sorted by `(date, id)`. -/
def filter_expenses (expenses : List Expense) (category : Option String)
    (month : Option Int) (todayYear : Nat) : Except PyErr (List Expense) :=
  let f1 := match category with
    | none => expenses
    | some c =>
      if c = "" then expenses
      else expenses.filter (fun e => pyLower (e.category.getD "") == pyLower c)
  match month with
  | none => .ok (f1.mergeSort expLe)
  | some m =>
    match month_to_ym m (some (todayYear : Int)) (todayYear : Int) with
    | .error e => .error e
    | .ok (y, mm) =>
      .ok (((f1.filter (fun e => pyStartswith e.date (ymDash y.toNat mm.toNat)))).mergeSort expLe)

/-- The `Category` cell of the listing table: `e.get("category") or "-"`. -/
def orDash : Option String → String
  | none => "-"
  | some s => if s = "" then "-" else s

/-- Column width `max(len(h), *(len(r[i]) for r in rows))`. -/
def colWidth (rows : List (List String)) (i : Nat) (h : String) : Nat :=
  (rows.map (fun r => ((r.get? i).getD "").length)).foldl max h.length

/-- `fmt_row` (lines 170-171): two-space join of left-justified cells. -/
def fmt_row (widths : List Nat) (cols : List String) : String :=
  String.intercalate "  " ((cols.zip widths).map (fun p => ljust p.1 p.2))

/-- `list_expenses` (lines 153-174): filter, print "No expenses found." when
empty, otherwise a column-aligned table. -/
def list_expenses (doc : Doc) (env : Env) (category : Option String)
    (month : Option Int) : Except PyErr HRes :=
  match filter_expenses doc.expenses category month env.year with
  | .error e => .error e
  | .ok es =>
    match es with
    | [] => .ok ⟨none, ["No expenses found."], none⟩
    | _ =>
      let headers := ["ID", "Date", "Description", "Amount", "Category"]
      let rows := es.map (fun e =>
        [toString e.id, e.date, e.description, "$" ++ fmt2 e.amount, orDash e.category])
      let widths := headers.enum.map (fun p => colWidth rows p.1 p.2)
      .ok ⟨none, fmt_row widths headers :: rows.map (fmt_row widths), none⟩

/-- `summary` (lines 177-194): filter by month only, add the amounts, print
the total (with the month's name when a month was given), then the
over-budget warning when a budget exists for the key and is exceeded. -/
def summary (doc : Doc) (env : Env) (month : Option Int) : Except PyErr HRes :=
  match filter_expenses doc.expenses none month env.year with
  | .error e => .error e
  | .ok es =>
    let total := es.foldl (fun acc e => acc + e.amount) 0
    match month with
    | none => .ok ⟨none, ["Total expenses: $" ++ fmt2 total], none⟩
    | some m =>
      let line1 := "Total expenses for " ++ month_name m ++ ": $" ++ fmt2 total
      match month_to_ym m (some (env.year : Int)) (env.year : Int) with
      | .error e => .error e
      | .ok (y, mm) =>
        let key := ym_key y mm
        match List.lookup key doc.budgets with
        | some b =>
          if total > b then
            .ok ⟨none, [line1, "Warning: over budget for " ++ key ++ "! Budget $" ++
                        fmt2 b ++ ", spent $" ++ fmt2 total], none⟩
          else .ok ⟨none, [line1], none⟩
        | none => .ok ⟨none, [line1], none⟩

/-- Python dict assignment `d[k] = v` on an association list: overwrite the
first (for JSON objects: only) binding in place, or append a new one. -/
def dictSet (k : String) (v : ℚ) : List (String × ℚ) → List (String × ℚ)
  | [] => [(k, v)]
  | (k', v') :: t => if k' = k then (k, v) :: t else (k', v') :: dictSet k v t

/-- `budget_set` (lines 197-203): validate the month, validate the amount,
overwrite the budget at the `YYYY-MM` key, save, print confirmation. -/
def budget_set (doc : Doc) (env : Env) (month : Int) (amount : ℚ) :
    Except PyErr HRes :=
  match month_to_ym month (some (env.year : Int)) (env.year : Int) with
  | .error e => .error e
  | .ok (y, mm) =>
    let key := ym_key y mm
    match validate_amount amount with
    | .error e => .error e
    | .ok v =>
      .ok ⟨some ⟨doc.next_id, doc.expenses, dictSet key v doc.budgets⟩,
           ["Budget set for " ++ key ++ ": $" ++ fmt2 v], none⟩

/-- Key comparison of `sorted(budgets.items())` (tuple order; keys of a JSON
object are unique so the value component never decides). -/
def pairLe (a b : String × ℚ) : Bool :=
  charsLt a.1.data b.1.data || (a.1 == b.1 && decide (a.2 ≤ b.2))

/-- `budget_show` (lines 206-227). -/
def budget_show (doc : Doc) (env : Env) (month : Option Int) : Except PyErr HRes :=
  match month with
  | none =>
    match doc.budgets with
    | [] => .ok ⟨none, ["No budgets set."], none⟩
    | _ =>
      let headers := ["Month", "Budget"]
      let rows := (doc.budgets.mergeSort pairLe).map (fun p => [p.1, "$" ++ fmt2 p.2])
      let widths := headers.enum.map (fun q => colWidth rows q.1 q.2)
      .ok ⟨none, fmt_row widths headers :: rows.map (fmt_row widths), none⟩
  | some m =>
    match month_to_ym m (some (env.year : Int)) (env.year : Int) with
    | .error e => .error e
    | .ok (y, mm) =>
      let key := ym_key y mm
      match List.lookup key doc.budgets with
      | some b => .ok ⟨none, ["Budget for " ++ key ++ ": $" ++ fmt2 b], none⟩
      | none => .ok ⟨none, ["No budget set for " ++ key ++ "."], none⟩

/-- Minimal-quoting CSV field (`csv` module default dialect): quote when the
field holds a comma, quote, or line break, doubling inner quotes. -/
def csvQuote (s : String) : String :=
  if s.contains ',' || s.contains '"' || s.contains '\n' || s.contains '\r' then
    "\"" ++ (s.replace "\"" "\"\"") ++ "\""
  else s

/-- One CSV line. -/
def csvRow (cells : List String) : String :=
  String.intercalate "," (cells.map csvQuote)

/-- `export_csv` (lines 230-249): filter, refuse to write when empty,
otherwise emit the header and one row per expense (`None` category becomes
an empty field) and print the count and path. -/
def export_csv (doc : Doc) (env : Env) (path : String) (category : Option String)
    (month : Option Int) : Except PyErr HRes :=
  match filter_expenses doc.expenses category month env.year with
  | .error e => .error e
  | .ok es =>
    match es with
    | [] => .ok ⟨none, ["No expenses to export."], none⟩
    | _ =>
      let header := csvRow ["id", "date", "description", "amount", "category"]
      let rows := es.map (fun e =>
        csvRow [toString e.id, e.date, e.description, pyFloatStr e.amount,
                e.category.getD ""])
      .ok ⟨none, ["Exported " ++ toString es.length ++ " expenses to " ++ path],
           some (path, header :: rows)⟩

/-! ### CLI dispatch (`build_parser` / `main`, lines 252-322) -/

/-- A parsed command line: one constructor per subcommand with its flags. -/
inductive Cmd where
  | add (description : String) (amount : ℚ) (date : Option String)
        (category : Option String)
  | update (id : Int) (description : Option String) (amount : Option ℚ)
           (date : Option String) (category : Option String)
  | delete (id : Int)
  | list (category : Option String) (month : Option Int)
  | summary (month : Option Int)
  | budgetSet (month : Int) (amount : ℚ)
  | budgetShow (month : Option Int)
  | exportCsv (csv : String) (category : Option String) (month : Option Int)

/-- `args.func(args)`: dispatch to the handler. -/
def runCmd (doc : Doc) (env : Env) : Cmd → Except PyErr HRes
  | .add d a dt c => add_expense doc env d a dt c
  | .update i d a dt c => update_expense doc env i d a dt c
  | .delete i => delete_expense doc i
  | .list c m => list_expenses doc env c m
  | .summary m => summary doc env m
  | .budgetSet m a => budget_set doc env m a
  | .budgetShow m => budget_show doc env m
  | .exportCsv p c m => export_csv doc env p c m

/-- `main` (lines 310-318): run the command, catching `ArgumentTypeError` and
reporting it as a single `Error: <message>` line with nothing saved or
written. -/
def main (doc : Doc) (env : Env) (c : Cmd) : HRes :=
  match runCmd doc env c with
  | .ok r => r
  | .error (.argTypeError m) => ⟨none, ["Error: " ++ m], none⟩

/-- The id-counter invariant of the document: `next_id` is strictly greater
than every id present in `expenses`. -/
def IdInv (d : Doc) : Prop := ∀ e ∈ d.expenses, e.id < d.next_id

/-- The keys of the budgets mapping. -/
def keysOf (l : List (String × ℚ)) : List String := l.map (fun p => p.1)

/-! ### Helper lemmas -/

theorem charsLt_iff (l1 l2 : List Char) : charsLt l1 l2 = true ↔ l1 < l2 := by
  induction l1 generalizing l2 with
  | nil =>
    cases l2 with
    | nil =>
      simp only [charsLt, Bool.false_eq_true, false_iff]
      intro h; cases h
    | cons b bs =>
      simp only [charsLt, true_iff]
      exact List.Lex.nil
  | cons a as ih =>
    cases l2 with
    | nil =>
      simp only [charsLt, Bool.false_eq_true, false_iff]
      intro h; cases h
    | cons b bs =>
      simp only [charsLt]
      split_ifs with h1 h2
      · simp only [true_iff]
        exact List.Lex.rel h1
      · simp only [Bool.false_eq_true, false_iff]
        intro h
        cases h with
        | cons h => exact absurd h2 (lt_irrefl a)
        | rel h => exact absurd h h1
      · have hab : a = b := le_antisymm (not_lt.mp h2) (not_lt.mp h1)
        subst hab
        rw [ih]
        constructor
        · intro h; exact List.Lex.cons h
        · intro h
          cases h with
          | cons h => exact h
          | rel h => exact absurd h h1

theorem expLe_iff (a b : Expense) :
    expLe a b = true ↔
      (a.date.data < b.date.data ∨ (a.date = b.date ∧ a.id ≤ b.id)) := by
  simp only [expLe, Bool.or_eq_true, Bool.and_eq_true, beq_iff_eq,
    decide_eq_true_eq, charsLt_iff]

theorem expLe_trans (a b c : Expense) (h1 : expLe a b = true) (h2 : expLe b c = true) :
    expLe a c = true := by
  rw [expLe_iff] at h1 h2 ⊢
  rcases h1 with h1 | ⟨h1e, h1i⟩
  · rcases h2 with h2 | ⟨h2e, h2i⟩
    · exact Or.inl (lt_trans h1 h2)
    · exact Or.inl (h2e ▸ h1)
  · rcases h2 with h2 | ⟨h2e, h2i⟩
    · exact Or.inl (h1e ▸ h2)
    · exact Or.inr ⟨h1e.trans h2e, le_trans h1i h2i⟩

theorem expLe_total (a b : Expense) : (expLe a b || expLe b a) = true := by
  rw [Bool.or_eq_true, expLe_iff, expLe_iff]
  rcases lt_trichotomy a.date.data b.date.data with h | h | h
  · exact Or.inl (Or.inl h)
  · have he : a.date = b.date := by
      have h2 := congrArg String.mk h
      exact h2
    rcases le_total a.id b.id with hi | hi
    · exact Or.inl (Or.inr ⟨he, hi⟩)
    · exact Or.inr (Or.inr ⟨he.symm, hi⟩)
  · exact Or.inr (Or.inl h)

theorem rhe_close (x : ℚ) : |(rhe x : ℚ) - x| ≤ 1/2 := by
  have h0 : ((⌊x⌋ : ℚ)) ≤ x := Int.floor_le x
  have h1 : x < ⌊x⌋ + 1 := Int.lt_floor_add_one x
  unfold rhe
  split_ifs with ha hb hc <;> rw [abs_le] <;> constructor <;> push_cast <;> linarith

theorem digitVal_digitChar (n : Nat) (h : n < 10) : digitVal? (digitChar n) = some n := by
  interval_cases n <;> rfl

theorem daysInMonth_le_31 (y m : Nat) : daysInMonth y m ≤ 31 := by
  unfold daysInMonth
  split_ifs <;> omega

theorem dayEnd_pad2l (d : Nat) (h1 : 1 ≤ d) (h2 : d ≤ 31) :
    dayEnd (pad2l d) = some d := by
  have hA : d / 10 % 10 < 10 := Nat.mod_lt _ (by norm_num)
  have hB : d % 10 < 10 := Nat.mod_lt _ (by norm_num)
  show dayEnd [digitChar (d / 10 % 10), digitChar (d % 10)] = some d
  simp only [dayEnd, digitVal_digitChar _ hA, digitVal_digitChar _ hB]
  have hd : d / 10 % 10 * 10 + d % 10 = d := by omega
  rw [hd, if_pos ⟨h1, h2⟩]

theorem twoDigitMonth_pads (m d : Nat) (hm1 : 1 ≤ m) (hm2 : m ≤ 12)
    (hd1 : 1 ≤ d) (hd31 : d ≤ 31) :
    twoDigitMonth (pad2l m ++ '-' :: pad2l d) = some (m, d) := by
  have hA : m / 10 % 10 < 10 := Nat.mod_lt _ (by norm_num)
  have hB : m % 10 < 10 := Nat.mod_lt _ (by norm_num)
  show twoDigitMonth (digitChar (m / 10 % 10) :: digitChar (m % 10) :: '-' :: pad2l d)
      = some (m, d)
  simp only [twoDigitMonth, digitVal_digitChar _ hA, digitVal_digitChar _ hB]
  have hm : m / 10 % 10 * 10 + m % 10 = m := by omega
  rw [hm, if_pos ⟨hm1, hm2⟩, dayEnd_pad2l d hd1 hd31]

theorem parseMD_pads (m d : Nat) (hm1 : 1 ≤ m) (hm2 : m ≤ 12)
    (hd1 : 1 ≤ d) (hd31 : d ≤ 31) :
    parseMD (pad2l m ++ '-' :: pad2l d) = some (m, d) := by
  unfold parseMD
  rw [twoDigitMonth_pads m d hm1 hm2 hd1 hd31]

theorem strptimeYmd_iso (y m d : Nat) (hy1 : 1 ≤ y) (hy2 : y ≤ 9999)
    (hm1 : 1 ≤ m) (hm2 : m ≤ 12) (hd1 : 1 ≤ d) (hd2 : d ≤ daysInMonth y m) :
    strptimeYmd (isoformat y m d) = some (y, m, d) := by
  have hd31 : d ≤ 31 := le_trans hd2 (daysInMonth_le_31 y m)
  have h1 : y / 1000 % 10 < 10 := Nat.mod_lt _ (by norm_num)
  have h2 : y / 100 % 10 < 10 := Nat.mod_lt _ (by norm_num)
  have h3 : y / 10 % 10 < 10 := Nat.mod_lt _ (by norm_num)
  have h4 : y % 10 < 10 := Nat.mod_lt _ (by norm_num)
  have hdata : (isoformat y m d).data =
      digitChar (y / 1000 % 10) :: digitChar (y / 100 % 10) :: digitChar (y / 10 % 10) ::
        digitChar (y % 10) :: '-' :: (pad2l m ++ '-' :: pad2l d) := rfl
  unfold strptimeYmd
  rw [hdata]
  simp only [digitVal_digitChar _ h1, digitVal_digitChar _ h2, digitVal_digitChar _ h3,
    digitVal_digitChar _ h4, parseMD_pads m d hm1 hm2 hd1 hd31]
  have hy : ((y / 1000 % 10 * 10 + y / 100 % 10) * 10 + y / 10 % 10) * 10 + y % 10 = y := by
    omega
  rw [hy, if_pos ⟨hy1, hd1, hd2⟩]

theorem mk_cons_ne_empty (c : Char) (l : List Char) : String.mk (c :: l) ≠ "" := by
  intro h
  have h2 := congrArg String.data h
  simp at h2

theorem pyLower_ne_empty (s : String) (h : s ≠ "") : pyLower s ≠ "" := by
  cases s with
  | mk l =>
    cases l with
    | nil => exact absurd rfl h
    | cons c t => exact mk_cons_ne_empty _ _

theorem dictSet_idem (k : String) (v : ℚ) (l : List (String × ℚ)) :
    dictSet k v (dictSet k v l) = dictSet k v l := by
  induction l with
  | nil => simp [dictSet]
  | cons p t ih =>
    by_cases h : p.1 = k
    · simp [dictSet, h]
    · simp [dictSet, h, ih]

theorem dictSet_countP (k : String) (v : ℚ) (l : List (String × ℚ))
    (h : (keysOf l).Nodup) :
    (dictSet k v l).countP (fun p => p.1 == k) = 1 := by
  induction l with
  | nil => simp [dictSet, List.countP_cons]
  | cons p t ih =>
    simp only [keysOf, List.map_cons, List.nodup_cons] at h
    by_cases hk : p.1 = k
    · simp only [dictSet, if_pos hk, List.countP_cons, beq_self_eq_true, if_pos rfl]
      have hz : t.countP (fun q => q.1 == k) = 0 := by
        rw [List.countP_eq_zero]
        intro q hq
        simp only [beq_iff_eq]
        intro hqk
        exact h.1 (hk ▸ hqk ▸ List.mem_map_of_mem (fun p => p.1) hq)
      simp [hz]
    · simp only [dictSet, if_neg hk, List.countP_cons]
      have hmiss : (p.1 == k) = false := by simp [hk]
      have ihv := ih (by simpa [keysOf] using h.2)
      simp [hmiss, ihv]

theorem dictSet_lookup (k : String) (v : ℚ) (l : List (String × ℚ)) :
    List.lookup k (dictSet k v l) = some v := by
  induction l with
  | nil => simp [dictSet, List.lookup]
  | cons p t ih =>
    by_cases h : p.1 = k
    · simp [dictSet, h, List.lookup]
    · simp only [dictSet, if_neg h, List.lookup]
      have : (k == p.1) = false := by
        simp only [beq_eq_false_iff_ne, ne_eq]
        intro hk
        exact h hk.symm
      simp [this, ih]

theorem dictSet_length_of_mem (k : String) (v : ℚ) (l : List (String × ℚ))
    (h : k ∈ keysOf l) : (dictSet k v l).length = l.length := by
  induction l with
  | nil => simp [keysOf] at h
  | cons p t ih =>
    simp only [keysOf, List.map_cons, List.mem_cons] at h
    by_cases hk : p.1 = k
    · simp [dictSet, hk]
    · rcases h with h | h
      · exact absurd h.symm hk
      · simp [dictSet, hk, ih h]

/-! ### Claim theorems -/

/-- C2, counterexample: the claim says `load()` never raises for every
backing-file state, but a file holding valid JSON that is not an object
(for instance `[]` or `null`) reaches `data.setdefault` and raises an
uncaught `AttributeError`. -/
theorem load_data_nonobj_raises :
    load_data (.json .nonObj) true = .error .attributeError := rfl

/-- C2, amended: for every backing-file state that is absent, unparsable, or
parses to a JSON object, `load()` never raises: an absent file yields the
fresh document (`next_id = 1`, empty expenses and budgets); an unparsable
file yields the fresh document with the file moved aside best-effort (a
rename failure is silently ignored and only suppresses the backup); a parsed
object has each missing top-level key backfilled with its default. -/
theorem load_data_recovers (raw : RawDoc) (renameOk : Bool) :
    load_data .absent renameOk = .ok (freshDoc, false) ∧
    load_data .unparsable renameOk = .ok (freshDoc, renameOk) ∧
    load_data (.json (.obj raw)) renameOk =
      .ok (⟨raw.next_id.getD 1, raw.expenses.getD [], raw.budgets.getD []⟩, false) :=
  ⟨rfl, rfl, rfl⟩

/-- C3: whenever a command handler raises `InvalidInput`
(`ArgumentTypeError`), the top level catches it, prints exactly one
`Error: <message>` line, saves no document and writes no file. -/
theorem invalid_input_caught (doc : Doc) (env : Env) (c : Cmd) (msg : String)
    (h : runCmd doc env c = .error (.argTypeError msg)) :
    main doc env c = ⟨none, ["Error: " ++ msg], none⟩ := by
  simp [main, h]

/-- C3 witness: `add` with a negative amount is rejected and nothing is
saved. -/
theorem invalid_input_caught_witness :
    main ⟨1, [], []⟩ ⟨"2025-06-15", 2025⟩ (.add "x" (-1) none none) =
      ⟨none, ["Error: Amount must be positive."], none⟩ :=
  invalid_input_caught ⟨1, [], []⟩ ⟨"2025-06-15", 2025⟩ (.add "x" (-1) none none)
    "Amount must be positive." rfl

/-- C5: `validate_amount` fails with `InvalidInput` exactly when the raw
amount is `≤ 0`; any returned value is an integer number of cents (exactly
two decimal places) within half a cent of the raw value. -/
theorem validate_amount_spec (raw : ℚ) :
    (validate_amount raw = .error (.argTypeError "Amount must be positive.") ↔ raw ≤ 0) ∧
    (∀ q, validate_amount raw = .ok q →
      (∃ k : ℤ, q = (k : ℚ) / 100) ∧ |q - raw| ≤ 1 / 200) := by
  constructor
  · unfold validate_amount
    split_ifs with h <;> simp [h]
  · intro q hq
    unfold validate_amount at hq
    split_ifs at hq with h
    rw [Except.ok.injEq] at hq
    subst hq
    refine ⟨⟨rhe (100 * raw), rfl⟩, ?_⟩
    have hc := rhe_close (100 * raw)
    unfold round2
    rw [abs_le] at hc ⊢
    constructor
    · linarith [hc.1]
    · linarith [hc.2]

/-- C5 witness: `0.157` is accepted and returns a value with exactly two
decimal places within half a cent. -/
theorem validate_amount_spec_witness :
    (∃ k : ℤ, round2 ((157:ℚ)/1000) = (k : ℚ) / 100) ∧
      |round2 ((157:ℚ)/1000) - (157:ℚ)/1000| ≤ 1 / 200 :=
  (validate_amount_spec ((157:ℚ)/1000)).2 (round2 ((157:ℚ)/1000))
    (by unfold validate_amount; rw [if_neg (by norm_num)])

/-- C9: `save(load())` on an existing well-formed document (all three
top-level keys present) reproduces exactly the same keys and values of
`next_id`, `expenses` and `budgets` in the backing file. -/
theorem save_load_roundtrip (n : Int) (es : List Expense)
    (bs : List (String × ℚ)) (renameOk : Bool) :
    ∃ d, load_data (.json (.obj ⟨some n, some es, some bs⟩)) renameOk = .ok (d, false) ∧
      d.next_id = n ∧ d.expenses = es ∧ d.budgets = bs ∧
      save_data d = .json (.obj ⟨some n, some es, some bs⟩) :=
  ⟨⟨n, es, bs⟩, rfl, rfl, rfl, rfl, rfl⟩

/-- C10: filtering with an empty-string category is exactly the same as
filtering with no category at all (Python's truthiness check `if category:`),
for every expense list and optional month: an empty-string filter can never
select the uncategorized records. -/
theorem filter_empty_category (es : List Expense) (month : Option Int) (y : Nat) :
    filter_expenses es (some "") month y = filter_expenses es none month y := rfl

/-- C6, counterexample: the claim says any string not in exact `YYYY-MM-DD`
form fails, but `strptime` accepts one-digit month/day: `"2024-3-1"` parses
successfully and is canonicalized rather than rejected. -/
theorem parse_date_lenient_cex :
    parse_date "2025-06-15" (some "2024-3-1") = .ok "2024-03-01" ∧
      ("2024-3-1" : String) ≠ "2024-03-01" :=
  ⟨rfl, by decide⟩

/-- C6, amended: `parse_date` round-trips every valid zero-padded
`YYYY-MM-DD` string (a real calendar date with year `1..9999`) to itself;
empty or absent input returns today's date; any input that `strptime`
accepts — which also includes one-or-two-digit month/day forms in range —
returns the canonical zero-padded form; every other string fails with
`InvalidInput`. -/
theorem parse_date_spec (today : String) (y m d : Nat)
    (hy1 : 1 ≤ y) (hy2 : y ≤ 9999) (hm1 : 1 ≤ m) (hm2 : m ≤ 12)
    (hd1 : 1 ≤ d) (hd2 : d ≤ daysInMonth y m) :
    parse_date today (some (isoformat y m d)) = .ok (isoformat y m d) ∧
    parse_date today none = .ok today ∧
    parse_date today (some "") = .ok today ∧
    (∀ s y2 m2 d2, strptimeYmd s = some (y2, m2, d2) →
      parse_date today (some s) = .ok (isoformat y2 m2 d2)) ∧
    (∀ s, s ≠ "" → strptimeYmd s = none →
      parse_date today (some s) =
        .error (.argTypeError "Invalid date format. Use YYYY-MM-DD.")) := by
  have hne : isoformat y m d ≠ "" := mk_cons_ne_empty _ _
  refine ⟨?_, rfl, rfl, ?_, ?_⟩
  · simp only [parse_date]
    rw [if_neg hne, strptimeYmd_iso y m d hy1 hy2 hm1 hm2 hd1 hd2]
  · intro s y2 m2 d2 hs
    have hsne : s ≠ "" := by
      intro h
      subst h
      cases hs
    simp only [parse_date]
    rw [if_neg hsne, hs]
  · intro s hsne hs
    simp only [parse_date]
    rw [if_neg hsne, hs]

/-- C6 witness: the strict form `2024-03-01` round-trips and the degenerate
inputs return today. -/
theorem parse_date_spec_witness :
    parse_date "2025-06-15" (some (isoformat 2024 3 1)) = .ok (isoformat 2024 3 1) ∧
      parse_date "2025-06-15" none = .ok "2025-06-15" :=
  ⟨(parse_date_spec "2025-06-15" 2024 3 1 (by decide) (by decide) (by decide)
      (by decide) (by decide) (by decide)).1,
   (parse_date_spec "2025-06-15" 2024 3 1 (by decide) (by decide) (by decide)
      (by decide) (by decide) (by decide)).2.1⟩

/-- C1: starting from any document satisfying the id invariant, `add`
assigns the new record `id = next_id` and increments `next_id`, and `delete`
keeps `next_id` and only removes records, so `next_id` stays strictly
greater than every id currently or ever present in `expenses`. -/
theorem next_id_invariant (doc : Doc) (env : Env) (desc : String) (amt : ℚ)
    (dt : Option String) (cat : Option String) (did : Int) (h : IdInv doc) :
    (∀ r, add_expense doc env desc amt dt cat = .ok r → ∀ d2, r.saved = some d2 →
      IdInv d2 ∧ d2.next_id = doc.next_id + 1 ∧
      d2.expenses.map (fun e => e.id) = doc.expenses.map (fun e => e.id) ++ [doc.next_id]) ∧
    (∀ r, delete_expense doc did = .ok r → ∀ d2, r.saved = some d2 →
      IdInv d2 ∧ d2.next_id = doc.next_id ∧ ∀ e ∈ d2.expenses, e ∈ doc.expenses) := by
  constructor
  · intro r hr d2 hd2
    unfold add_expense at hr
    split at hr
    · cases hr
    · split at hr
      · cases hr
      · rw [Except.ok.injEq] at hr
        subst hr
        simp only [Option.some.injEq] at hd2
        subst hd2
        refine ⟨?_, rfl, by simp⟩
        intro e he
        show e.id < doc.next_id + 1
        simp only [List.mem_append, List.mem_singleton] at he
        rcases he with he | he
        · have := h e he
          omega
        · subst he
          show doc.next_id < doc.next_id + 1
          omega
  · intro r hr d2 hd2
    simp only [delete_expense] at hr
    split at hr
    · rw [Except.ok.injEq] at hr
      subst hr
      cases hd2
    · rw [Except.ok.injEq] at hr
      subst hr
      simp only [Option.some.injEq] at hd2
      subst hd2
      refine ⟨?_, rfl, ?_⟩
      · intro e he
        exact h e (List.mem_of_mem_filter he)
      · intro e he
        exact List.mem_of_mem_filter he

/-- C1 witness: adding to a concrete document preserves the invariant with
the new id `next_id` appended, at the concrete document
`⟨2, [⟨1, "2024-01-01", "a", 5, none⟩], []⟩`. -/
theorem next_id_invariant_witness :
    IdInv ⟨3, [⟨1, "2024-01-01", "a", 5, none⟩,
               ⟨2, "2024-01-02", "x", round2 5, none⟩], []⟩ ∧
    (⟨3, [⟨1, "2024-01-01", "a", 5, none⟩,
          ⟨2, "2024-01-02", "x", round2 5, none⟩], []⟩ : Doc).next_id = 2 + 1 ∧
    ([⟨1, "2024-01-01", "a", 5, none⟩,
      ⟨2, "2024-01-02", "x", round2 5, none⟩] : List Expense).map (fun e => e.id) =
      ([⟨1, "2024-01-01", "a", 5, none⟩] : List Expense).map (fun e => e.id) ++ [2] :=
  (next_id_invariant ⟨2, [⟨1, "2024-01-01", "a", 5, none⟩], []⟩ ⟨"2025-06-15", 2025⟩
      "x" 5 (some "2024-01-02") none 1
      (by intro e he; simp at he; subst he; decide)).1
    ⟨some ⟨3, [⟨1, "2024-01-01", "a", 5, none⟩,
               ⟨2, "2024-01-02", "x", round2 5, none⟩], []⟩,
      ["Expense added successfully (ID: 2)"], none⟩
    rfl
    ⟨3, [⟨1, "2024-01-01", "a", 5, none⟩, ⟨2, "2024-01-02", "x", round2 5, none⟩], []⟩
    rfl

/-- C4: `update` and `delete` with an id absent from the document print the
not-found line, save nothing, leave the document untouched, and return
normally (no exception). -/
theorem notfound_no_save (doc : Doc) (env : Env) (eid : Int)
    (desc2 : Option String) (amt2 : Option ℚ) (dt2 : Option String)
    (cat2 : Option String) (h : ∀ e ∈ doc.expenses, e.id ≠ eid) :
    update_expense doc env eid desc2 amt2 dt2 cat2 =
      .ok ⟨none, ["Error: Expense ID not found."], none⟩ ∧
    delete_expense doc eid = .ok ⟨none, ["Error: Expense ID not found."], none⟩ := by
  have hfind : doc.expenses.find? (fun e => e.id == eid) = none := by
    rw [List.find?_eq_none]
    intro e he
    simp only [beq_iff_eq]
    exact h e he
  have hfilter : doc.expenses.filter (fun e => e.id != eid) = doc.expenses := by
    rw [List.filter_eq_self]
    intro e he
    simp only [bne_iff_ne, ne_eq]
    exact h e he
  constructor
  · unfold update_expense
    rw [hfind]
  · unfold delete_expense
    rw [hfilter, if_pos rfl]

/-- C4 witness: at the concrete one-record document, id `42` is reported as
not found by both `update` and `delete` with nothing saved. -/
theorem notfound_no_save_witness :
    update_expense ⟨2, [⟨1, "2024-01-01", "a", 5, none⟩], []⟩ ⟨"2025-06-15", 2025⟩
        42 none none none none =
      .ok ⟨none, ["Error: Expense ID not found."], none⟩ ∧
    delete_expense ⟨2, [⟨1, "2024-01-01", "a", 5, none⟩], []⟩ 42 =
      .ok ⟨none, ["Error: Expense ID not found."], none⟩ :=
  notfound_no_save ⟨2, [⟨1, "2024-01-01", "a", 5, none⟩], []⟩ ⟨"2025-06-15", 2025⟩
    42 none none none none (by intro e he; simp at he; subst he; decide)

/-- C8: `budget set` is idempotent and last-write-wins: setting the same
month and amount twice yields the same saved document and printed line as
setting it once; the saved document holds exactly one budget entry at the
month's `YYYY-MM` key, carrying the validated amount; and when the key
already existed the entry count does not grow (overwrite, not append). -/
theorem budget_set_idem (doc : Doc) (env : Env) (m : Int) (a : ℚ)
    (hm1 : 1 ≤ m) (hm2 : m ≤ 12) (ha : 0 < a)
    (hnd : (keysOf doc.budgets).Nodup) :
    ∃ d1 r1, budget_set doc env m a = .ok r1 ∧ r1.saved = some d1 ∧
      budget_set d1 env m a = .ok r1 ∧
      d1.budgets.countP (fun p => p.1 == ym_key (env.year : Int) m) = 1 ∧
      List.lookup (ym_key (env.year : Int) m) d1.budgets = some (round2 a) ∧
      (ym_key (env.year : Int) m ∈ keysOf doc.budgets →
        d1.budgets.length = doc.budgets.length) := by
  have hym : month_to_ym m (some (env.year : Int)) (env.year : Int) =
      .ok ((env.year : Int), m) := by
    unfold month_to_ym
    rw [if_neg (by omega)]
    rfl
  have hva : validate_amount a = .ok (round2 a) := by
    unfold validate_amount
    rw [if_neg (not_le.mpr ha)]
  refine ⟨⟨doc.next_id, doc.expenses,
           dictSet (ym_key (env.year : Int) m) (round2 a) doc.budgets⟩,
         ⟨some ⟨doc.next_id, doc.expenses,
               dictSet (ym_key (env.year : Int) m) (round2 a) doc.budgets⟩,
          ["Budget set for " ++ ym_key (env.year : Int) m ++ ": $" ++ fmt2 (round2 a)],
          none⟩,
         ?_, rfl, ?_, ?_, ?_, ?_⟩
  · simp only [budget_set, hym, hva]
  · simp only [budget_set, hym, hva, dictSet_idem]
  · exact dictSet_countP _ _ _ hnd
  · exact dictSet_lookup _ _ _
  · intro hmem
    exact dictSet_length_of_mem _ _ _ hmem

/-- C8 witness: setting the May 2025 budget twice over a concrete document
that already has a January entry. -/
theorem budget_set_idem_witness :
    ∃ d1 r1, budget_set ⟨1, [], [("2025-01", 5)]⟩ ⟨"2025-06-15", 2025⟩ 5 100 = .ok r1 ∧
      r1.saved = some d1 ∧
      budget_set d1 ⟨"2025-06-15", 2025⟩ 5 100 = .ok r1 ∧
      d1.budgets.countP (fun p => p.1 == ym_key ((2025:Nat) : Int) 5) = 1 ∧
      List.lookup (ym_key ((2025:Nat) : Int) 5) d1.budgets = some (round2 100) ∧
      (ym_key ((2025:Nat) : Int) 5 ∈ keysOf [("2025-01", 5)] →
        d1.budgets.length = ([("2025-01", (5:ℚ))]).length) :=
  budget_set_idem ⟨1, [], [("2025-01", 5)]⟩ ⟨"2025-06-15", 2025⟩ 5 100
    (by decide) (by decide) (by norm_num) (by decide)

/-- C7: with a non-empty category filter and an in-range month, the filter
keeps exactly the records whose category matches case-insensitively (an
absent category never matches) and whose date starts with the
`YYYY-MM-` text of the current year and that month, and the result is
sorted ascending by the pair (date string, id). -/
theorem filter_expenses_spec (es : List Expense) (c : String) (m : Int) (y : Nat)
    (hc : c ≠ "") (hm1 : 1 ≤ m) (hm2 : m ≤ 12) :
    ∃ res, filter_expenses es (some c) (some m) y = .ok res ∧
      res.Perm (es.filter (fun e =>
        (pyLower (e.category.getD "") == pyLower c) &&
          pyStartswith e.date (ymDash y m.toNat))) ∧
      (∀ e, e ∈ res ↔ e ∈ es ∧ pyLower (e.category.getD "") = pyLower c ∧
        pyStartswith e.date (ymDash y m.toNat) = true) ∧
      (∀ e, e ∈ res → e.category ≠ none) ∧
      List.Pairwise (fun a b =>
        a.date.data < b.date.data ∨ (a.date = b.date ∧ a.id ≤ b.id)) res := by
  have hym : month_to_ym m (some (y : Int)) (y : Int) = .ok ((y : Int), m) := by
    unfold month_to_ym
    rw [if_neg (by omega)]
    rfl
  have hres : filter_expenses es (some c) (some m) y =
      .ok (((es.filter (fun e => pyLower (e.category.getD "") == pyLower c)).filter
              (fun e => pyStartswith e.date (ymDash ((y : Int)).toNat m.toNat))).mergeSort
            expLe) := by
    simp only [filter_expenses, if_neg hc, hym]
  rw [Int.toNat_ofNat] at hres
  refine ⟨_, hres, ?_, ?_, ?_, ?_⟩
  · refine (List.mergeSort_perm _ expLe).trans ?_
    rw [List.filter_filter]
    exact List.Perm.of_eq (List.filter_congr (fun e _ => Bool.and_comm _ _))
  · intro e
    rw [(List.mergeSort_perm _ expLe).mem_iff, List.mem_filter, List.mem_filter]
    constructor
    · rintro ⟨⟨he, hcat⟩, hmon⟩
      exact ⟨he, beq_iff_eq.mp hcat, hmon⟩
    · rintro ⟨he, hcat, hmon⟩
      exact ⟨⟨he, beq_iff_eq.mpr hcat⟩, hmon⟩
  · intro e he
    rw [(List.mergeSort_perm _ expLe).mem_iff, List.mem_filter, List.mem_filter] at he
    intro hnone
    have hcat := beq_iff_eq.mp he.1.2
    rw [hnone] at hcat
    exact pyLower_ne_empty c hc hcat.symm
  · have hs := List.sorted_mergeSort expLe_trans expLe_total
      ((es.filter (fun e => pyLower (e.category.getD "") == pyLower c)).filter
        (fun e => pyStartswith e.date (ymDash y m.toNat)))
    exact hs.imp (fun hab => (expLe_iff _ _).mp hab)

/-- C7 witness: a concrete three-record list filtered by category `"FOOD"`
and month 3 of year 2024. -/
theorem filter_expenses_spec_witness :
    ∃ res, filter_expenses
        [⟨1, "2024-03-05", "b", 5, some "Food"⟩,
         ⟨2, "2024-03-01", "a", 3, some "food"⟩,
         ⟨3, "2024-04-01", "c", 2, none⟩] (some "FOOD") (some 3) 2024 = .ok res ∧
      res.Perm (([⟨1, "2024-03-05", "b", 5, some "Food"⟩,
                  ⟨2, "2024-03-01", "a", 3, some "food"⟩,
                  ⟨3, "2024-04-01", "c", 2, none⟩] : List Expense).filter (fun e =>
        (pyLower (e.category.getD "") == pyLower "FOOD") &&
          pyStartswith e.date (ymDash 2024 (Int.toNat 3)))) ∧
      (∀ e, e ∈ res ↔ e ∈ [⟨1, "2024-03-05", "b", 5, some "Food"⟩,
                           ⟨2, "2024-03-01", "a", 3, some "food"⟩,
                           ⟨3, "2024-04-01", "c", 2, none⟩] ∧
        pyLower (e.category.getD "") = pyLower "FOOD" ∧
        pyStartswith e.date (ymDash 2024 (Int.toNat 3)) = true) ∧
      (∀ e, e ∈ res → e.category ≠ none) ∧
      List.Pairwise (fun a b =>
        a.date.data < b.date.data ∨ (a.date = b.date ∧ a.id ≤ b.id)) res :=
  filter_expenses_spec
    [⟨1, "2024-03-05", "b", 5, some "Food"⟩,
     ⟨2, "2024-03-01", "a", 3, some "food"⟩,
     ⟨3, "2024-04-01", "c", 2, none⟩] "FOOD" 3 2024
    (by decide) (by decide) (by decide)

end ExpenseTracker
